import Mathlib

/-!
# Dual-resolution multisample demo (`src/drms/main.c`)

A shallow embedding of the mode state machine, the render-target sizing and
reallocation (`callbackResize`, `callbackKey`, `deinitFramebuffers`,
`reinitFramebuffers`) and of the resolve fragment shader
(`shader_source_resolve_frag`), followed by the properties proved about them.

Conventions of the embedding:

* C `int` values are `Int`; C and GLSL integer `/` and `%` are `Int.tdiv` and
  `Int.tmod` (truncation toward zero).  No arithmetic in the program can
  overflow: the mode counters stay within `0..3` and sizes are only divided.
* `GLuint` object names are `Nat`.
* The OpenGL object state touched by the program is an explicit record `GlContext`;
  every call the framebuffer code issues is also appended to `GlContext.log`.
  Allocation is taken to succeed and no GL error is modelled.
* `printf`, the window title and the mesh / shader-program set-up have no
  effect on the state modelled here and are left out.
-/

namespace Drms

/-! ## Constants -/

/-- Macro `DEFAULT_WINDOW_WIDTH`. -/
def DEFAULT_WINDOW_WIDTH : Int := 1024

/-- Macro `DEFAULT_WINDOW_HEIGHT`. -/
def DEFAULT_WINDOW_HEIGHT : Int := 600

/-- Macro `MULTISAMPLE_SAMPLES`: how many samples MSAA uses. -/
def MULTISAMPLE_SAMPLES : Int := 4

/-- Key code of the D key, as defined by `GLFW/glfw3.h`. -/
def GLFW_KEY_D : Int := 68

/-- Key code of the M key, as defined by `GLFW/glfw3.h`. -/
def GLFW_KEY_M : Int := 77

/-- Key code of the R key, as defined by `GLFW/glfw3.h`. -/
def GLFW_KEY_R : Int := 82

/-- Key action "pressed", as defined by `GLFW/glfw3.h`. -/
def GLFW_PRESS : Int := 1

/-! ## OpenGL object state -/

/-- Texture targets used by the program. -/
inductive TexTarget where
  | TEXTURE_2D
  | TEXTURE_2D_MULTISAMPLE
  deriving DecidableEq, Repr

/-- Image storage of a texture object: what the last `glTexImage2D` or
`glTexImage2DMultisample` call on it specified. -/
inductive TexImage where
  | image2D (width height : Int)
  | image2DMultisample (samples width height : Int)
  deriving DecidableEq, Repr

/-- Samples stored per texel: one for a plain 2D image, the requested
number for a multisample image. -/
def TexImage.sampleCount : TexImage → Int
  | .image2D _ _ => 1
  | .image2DMultisample samples _ _ => samples

/-- Extent (width, height) of a texture image. -/
def TexImage.extent : TexImage → Int × Int
  | .image2D w h => (w, h)
  | .image2DMultisample _ w h => (w, h)

/-- Whether the image is a multisample image. -/
def TexImage.isMultisample : TexImage → Bool
  | .image2D _ _ => false
  | .image2DMultisample _ _ _ => true

/-- The OpenGL calls issued by the framebuffer code, in the order of
`GlContext.log`. -/
inductive GlCall where
  | DeleteFramebuffers (name : Nat)
  | DeleteTextures (name : Nat)
  | GenFramebuffers (name : Nat)
  | GenTextures (name : Nat)
  | BindTexture (target : TexTarget) (name : Nat)
  | TexImage2DMultisample (samples width height : Int)
  | TexImage2D (width height : Int)
  | BindFramebuffer (name : Nat)
  | FramebufferTexture (texture : Nat)
  deriving DecidableEq, Repr

/-- The part of the OpenGL context the framebuffer code acts on. -/
structure GlContext where
  /-- Last object name handed out by a `glGen*` call. -/
  last_name : Nat
  /-- Live texture objects with their image storage, if any. -/
  textures : List (Nat × Option TexImage)
  /-- Live framebuffer objects with the texture attached to
  `GL_COLOR_ATTACHMENT0` (0 when none). -/
  framebuffers : List (Nat × Nat)
  /-- Texture bound to `GL_TEXTURE_2D`. -/
  binding_2d : Nat
  /-- Texture bound to `GL_TEXTURE_2D_MULTISAMPLE`. -/
  binding_2d_multisample : Nat
  /-- Framebuffer bound to `GL_FRAMEBUFFER`. -/
  binding_framebuffer : Nat
  /-- Every call issued so far, oldest first. -/
  log : List GlCall
  deriving DecidableEq, Repr

/-- A fresh context: no objects, nothing bound. -/
def GlContext.fresh : GlContext :=
  { last_name := 0, textures := [], framebuffers := [], binding_2d := 0,
    binding_2d_multisample := 0, binding_framebuffer := 0, log := [] }

/-- Call `glDeleteFramebuffers(1, &name)`: the object goes away and a binding to it
reverts to 0. -/
def glDeleteFramebuffers (g : GlContext) (name : Nat) : GlContext :=
  { g with
    framebuffers := g.framebuffers.filter (fun p => p.1 ≠ name)
    binding_framebuffer := if g.binding_framebuffer = name then 0 else g.binding_framebuffer
    log := g.log ++ [.DeleteFramebuffers name] }

/-- Call `glDeleteTextures(1, &name)`: the object goes away and bindings to it
revert to 0. -/
def glDeleteTextures (g : GlContext) (name : Nat) : GlContext :=
  { g with
    textures := g.textures.filter (fun p => p.1 ≠ name)
    binding_2d := if g.binding_2d = name then 0 else g.binding_2d
    binding_2d_multisample :=
      if g.binding_2d_multisample = name then 0 else g.binding_2d_multisample
    log := g.log ++ [.DeleteTextures name] }

/-- Call `glGenFramebuffers(1, &out)`: hands out a fresh non-zero name. -/
def glGenFramebuffers (g : GlContext) : GlContext × Nat :=
  let name := g.last_name + 1
  ({ g with
     last_name := name
     framebuffers := (name, 0) :: g.framebuffers
     log := g.log ++ [.GenFramebuffers name] }, name)

/-- Call `glGenTextures(1, &out)`: hands out a fresh non-zero name. -/
def glGenTextures (g : GlContext) : GlContext × Nat :=
  let name := g.last_name + 1
  ({ g with
     last_name := name
     textures := (name, none) :: g.textures
     log := g.log ++ [.GenTextures name] }, name)

/-- Call `glBindTexture(target, name)`. -/
def glBindTexture (g : GlContext) (target : TexTarget) (name : Nat) : GlContext :=
  match target with
  | .TEXTURE_2D =>
    { g with binding_2d := name, log := g.log ++ [.BindTexture target name] }
  | .TEXTURE_2D_MULTISAMPLE =>
    { g with binding_2d_multisample := name, log := g.log ++ [.BindTexture target name] }

/-- Replace the image storage of texture `name`. -/
def setImage (name : Nat) (img : TexImage) :
    List (Nat × Option TexImage) → List (Nat × Option TexImage)
  | [] => []
  | (n, i) :: rest =>
    if n = name then (n, some img) :: setImage name img rest
    else (n, i) :: setImage name img rest

/-- Call `glTexImage2DMultisample(GL_TEXTURE_2D_MULTISAMPLE, samples, GL_RGBA8,
width, height, GL_TRUE)` on the bound multisample texture. -/
def glTexImage2DMultisample (g : GlContext) (samples width height : Int) : GlContext :=
  { g with
    textures :=
      setImage g.binding_2d_multisample (.image2DMultisample samples width height) g.textures
    log := g.log ++ [.TexImage2DMultisample samples width height] }

/-- Call `glTexImage2D(GL_TEXTURE_2D, 0, GL_RGBA8, width, height, 0, GL_RGBA,
GL_FLOAT, NULL)` on the bound 2D texture. -/
def glTexImage2D (g : GlContext) (width height : Int) : GlContext :=
  { g with
    textures := setImage g.binding_2d (.image2D width height) g.textures
    log := g.log ++ [.TexImage2D width height] }

/-- Call `glBindFramebuffer(GL_FRAMEBUFFER, name)`. -/
def glBindFramebuffer (g : GlContext) (name : Nat) : GlContext :=
  { g with binding_framebuffer := name, log := g.log ++ [.BindFramebuffer name] }

/-- Replace the colour attachment of framebuffer `name`. -/
def setAttachment (name texture : Nat) : List (Nat × Nat) → List (Nat × Nat)
  | [] => []
  | (n, t) :: rest =>
    if n = name then (n, texture) :: setAttachment name texture rest
    else (n, t) :: setAttachment name texture rest

/-- Call `glFramebufferTexture(GL_FRAMEBUFFER, GL_COLOR_ATTACHMENT0, texture, 0)` on
the bound framebuffer. -/
def glFramebufferTexture (g : GlContext) (texture : Nat) : GlContext :=
  { g with
    framebuffers := setAttachment g.binding_framebuffer texture g.framebuffers
    log := g.log ++ [.FramebufferTexture texture] }

/-! ## Program state -/

/-- The global `state` record, restricted to the fields the mode and
framebuffer code reads or writes, together with the OpenGL context. -/
structure State where
  /-- Multisample mode: 0 = no MS, 1 = 4S, 2 = half resolution MS with DR. -/
  ms_mode : Int
  /-- Resolution mode: 0 = full res, 1 = half res, 2 = quarter res. -/
  lowres : Int
  window_size : Int × Int
  window_size_low : Int × Int
  fbo_scene : Nat
  fbo_scene_color : Nat
  gl : GlContext
  deriving DecidableEq, Repr

/-- The static initialiser of `state`: only `window_size` is given, every
other field is zero. -/
def state : State :=
  { ms_mode := 0, lowres := 0,
    window_size := (DEFAULT_WINDOW_WIDTH, DEFAULT_WINDOW_HEIGHT),
    window_size_low := (0, 0),
    fbo_scene := 0, fbo_scene_color := 0, gl := GlContext.fresh }

/-! ## Framebuffer(s) -/

/-- Function `deinitFramebuffers`. -/
def deinitFramebuffers (state : State) : State :=
  if state.fbo_scene = 0 then
    state
  else
    let state := { state with gl := glDeleteFramebuffers state.gl state.fbo_scene }
    let state := { state with fbo_scene := 0 }
    let state := { state with gl := glDeleteTextures state.gl state.fbo_scene_color }
    { state with fbo_scene_color := 0 }

/-- Function `reinitFramebuffers`. -/
def reinitFramebuffers (state : State) : State :=
  let state := deinitFramebuffers state
  let r := glGenFramebuffers state.gl
  let state := { state with gl := r.1, fbo_scene := r.2 }
  let r := glGenTextures state.gl
  let state := { state with gl := r.1, fbo_scene_color := r.2 }
  let state :=
    if state.ms_mode ≠ 0 then
      let g := glBindTexture state.gl .TEXTURE_2D_MULTISAMPLE state.fbo_scene_color
      { state with
        gl := glTexImage2DMultisample g MULTISAMPLE_SAMPLES
                state.window_size_low.1 state.window_size_low.2 }
    else
      let g := glBindTexture state.gl .TEXTURE_2D state.fbo_scene_color
      { state with gl := glTexImage2D g state.window_size_low.1 state.window_size_low.2 }
  let g := glBindFramebuffer state.gl state.fbo_scene
  { state with gl := glFramebufferTexture g state.fbo_scene_color }

/-! ## GLFW callbacks -/

/-- Function `callbackResize`. -/
def callbackResize (state : State) (width height : Int) : State :=
  let state := { state with window_size := (width, height) }
  let state :=
    if state.lowres = 1 then
      { state with
        window_size_low := (state.window_size.1.tdiv 2, state.window_size.2.tdiv 2) }
    else if state.lowres = 2 then
      { state with
        window_size_low := (state.window_size.1.tdiv 4, state.window_size.2.tdiv 4) }
    else
      { state with window_size_low := (state.window_size.1, state.window_size.2) }
  let state :=
    if state.ms_mode = 2 then
      { state with
        window_size_low := (state.window_size_low.1.tdiv 2, state.window_size_low.2.tdiv 2) }
    else state
  reinitFramebuffers state

/-- Function `callbackKey`: three independent `if` statements, one per key.
The scancode and the modifier bits are not looked at. -/
def callbackKey (state : State) (key _scancode action _mods : Int) : State :=
  let state : State :=
    if key = GLFW_KEY_M ∧ action = GLFW_PRESS then
      let state : State := { state with ms_mode := state.ms_mode + 1 }
      let state : State := if state.ms_mode > 2 then { state with ms_mode := 0 } else state
      callbackResize state state.window_size.1 state.window_size.2
    else state
  let state : State :=
    if key = GLFW_KEY_D ∧ action = GLFW_PRESS then
      let state : State :=
        if state.ms_mode = 0 then { state with ms_mode := 2 }
        else { state with ms_mode := 0 }
      callbackResize state state.window_size.1 state.window_size.2
    else state
  let state : State :=
    if key = GLFW_KEY_R ∧ action = GLFW_PRESS then
      let state : State := { state with lowres := state.lowres + 1 }
      let state : State := if state.lowres > 2 then { state with lowres := 0 } else state
      callbackResize state state.window_size.1 state.window_size.2
    else state
  state

/-- The part of `main` before the main loop that touches the modelled
state: the start-up `callbackResize` with the initial window size. -/
def startup : State :=
  callbackResize state state.window_size.1 state.window_size.2

/-- An event delivered by `glfwPollEvents`: a window resize (the window
system reports non-negative sizes) or a key event. -/
inductive Event where
  | resize (width height : Nat)
  | key (key scancode action mods : Int)
  deriving DecidableEq, Repr

/-- One event, dispatched to the registered callback. -/
def step (s : State) : Event → State
  | .resize width height => callbackResize s width height
  | .key key scancode action mods => callbackKey s key scancode action mods

/-- The state after start-up followed by the given events, oldest first. -/
def run (events : List Event) : State :=
  events.foldl step startup

/-- The render target the frame loop draws into: the image of the texture
attached to the framebuffer `fbo_scene`. -/
def renderTarget (s : State) : Option TexImage :=
  match s.gl.framebuffers.lookup s.fbo_scene with
  | none => none
  | some texture =>
    match s.gl.textures.lookup texture with
    | none => none
    | some image => image

/-! ## Resolve fragment shader -/

/-- GLSL `vec3`, over any scalar type. -/
structure Vec3 (α : Type) where
  r : α
  g : α
  b : α
  deriving DecidableEq, Repr

/-- Component-wise `+=` on `vec3`. -/
def Vec3.add {α : Type} [Add α] (u v : Vec3 α) : Vec3 α :=
  ⟨u.r + v.r, u.g + v.g, u.b + v.b⟩

/-- Division `/=` of a `vec3` by a scalar. -/
def Vec3.div {α : Type} [Div α] (u : Vec3 α) (k : α) : Vec3 α :=
  ⟨u.r / k, u.g / k, u.b / k⟩

/-- The two sampler uniforms of the resolve shader. -/
inductive Sampler where
  | texture_scene_color
  | texture_scene_color_ms
  deriving DecidableEq, Repr

/-- One `texelFetch(sampler, P, index)` call; `index` is the level of detail
for the `sampler2D` and the sample number for the `sampler2DMS`. -/
structure Fetch where
  sampler : Sampler
  P : Int × Int
  index : Int
  deriving DecidableEq, Repr

/-- Contents of the textures behind the two samplers, as `texelFetch`
reads them. -/
structure Textures (α : Type) where
  texture_scene_color : Int × Int → Int → Vec3 α
  texture_scene_color_ms : Int × Int → Int → Vec3 α

/-- GLSL conversion of a float to `int`: the fractional part is dropped. -/
def ivec (v : ℚ) : Int :=
  if 0 ≤ v then ⌊v⌋ else -⌊-v⌋

/-- GLSL `a << n`, for a shift count that is not negative. -/
def shl (a n : Int) : Int :=
  a * 2 ^ n.toNat

/-- Value of `gl_FragCoord.xy` for the screen pixel in column `x` and row
`y`: the pixel centre, with the origin at the lower-left corner of the
window. -/
def gl_FragCoord (x y : Int) : ℚ × ℚ :=
  ((x : ℚ) + 0.5, (y : ℚ) + 0.5)

/-- State of one fragment-shader invocation: the local `texel_coord`, the
texel fetches made so far and `frag_out_color.rgb`. -/
structure Frag (α : Type) where
  texel_coord : Int × Int
  fetches : List Fetch
  rgb : Vec3 α

/-- First part of `main` of `shader_source_resolve_frag`: the computation of
`texel_coord` and the `if (ms_mode == 1) ... else if (ms_mode == 2) ...
else ...` statement. -/
def resolve_sample {α : Type} [Add α] [Div α] [OfScientific α]
    (tex : Textures α) (ms_mode lowres : Int) (fragCoord : ℚ × ℚ) : Frag α :=
  let texel_coord : Int × Int :=
    ((ivec fragCoord.1).tdiv (shl 1 lowres), (ivec fragCoord.2).tdiv (shl 1 lowres))
  if ms_mode = 1 then
    let rgb := tex.texture_scene_color_ms texel_coord 0
    let rgb := rgb.add (tex.texture_scene_color_ms texel_coord 1)
    let rgb := rgb.add (tex.texture_scene_color_ms texel_coord 2)
    let rgb := rgb.add (tex.texture_scene_color_ms texel_coord 3)
    let rgb := rgb.div 4.0
    { texel_coord := texel_coord
      fetches := [⟨.texture_scene_color_ms, texel_coord, 0⟩,
                  ⟨.texture_scene_color_ms, texel_coord, 1⟩,
                  ⟨.texture_scene_color_ms, texel_coord, 2⟩,
                  ⟨.texture_scene_color_ms, texel_coord, 3⟩]
      rgb := rgb }
  else if ms_mode = 2 then
    let sample_index : Int := texel_coord.1.tmod 2
    let sample_index : Int := sample_index + (texel_coord.2.tmod 2) * 2
    let texel_coord : Int × Int := (texel_coord.1.tdiv 2, texel_coord.2.tdiv 2)
    { texel_coord := texel_coord
      fetches := [⟨.texture_scene_color_ms, texel_coord, sample_index⟩]
      rgb := tex.texture_scene_color_ms texel_coord sample_index }
  else
    { texel_coord := texel_coord
      fetches := [⟨.texture_scene_color, texel_coord, 0⟩]
      rgb := tex.texture_scene_color texel_coord 0 }

/-- Second part of `main` of `shader_source_resolve_frag`: the two overlay
`if` statements, in source order. -/
def resolve_overlay {α : Type} [OfScientific α] (fragCoord : ℚ × ℚ) (f : Frag α) : Frag α :=
  let f : Frag α :=
    if fragCoord.1 < 20.0 ∧ f.texel_coord.2.tmod 2 = 0 then
      { f with rgb := ⟨0.0, 0.0, 1.0⟩ }
    else f
  let f : Frag α :=
    if fragCoord.2 < 20.0 ∧ f.texel_coord.1.tmod 2 = 0 then
      { f with rgb := ⟨1.0, 0.0, 0.0⟩ }
    else f
  f

/-- Output of the resolve shader: `frag_out_color` (as `rgb` and `a`), with
the record of what the invocation fetched. -/
structure FragOut (α : Type) where
  texel_coord : Int × Int
  fetches : List Fetch
  rgb : Vec3 α
  a : α

/-- Function `main` of `shader_source_resolve_frag`, run for a fragment at
`fragCoord` with the uniforms `ms_mode` and `lowres`. -/
def shader_source_resolve_frag {α : Type} [Add α] [Div α] [OfScientific α]
    (tex : Textures α) (ms_mode lowres : Int) (fragCoord : ℚ × ℚ) : FragOut α :=
  let f := resolve_overlay fragCoord (resolve_sample tex ms_mode lowres fragCoord)
  { texel_coord := f.texel_coord, fetches := f.fetches, rgb := f.rgb, a := 1.0 }

/-! ## Target sizing as the specification words it -/

/-- Divisor of a resolution mode: 1, 2, 4 for FULL, HALF, QUARTER. -/
def divisor (lowres : Int) : Int :=
  if lowres = 1 then 2 else if lowres = 2 then 4 else 1

/-- Specification function `computeExtent`, one dimension:
`base = window / divisor`, halved again for DRMS4, then `max(base, 1)`;
both divisions are floor divisions. -/
def spec_computeExtent (window ms_mode lowres : Int) : Int :=
  max 1 (window / divisor lowres / (if ms_mode = 2 then 2 else 1))

/-- A valid mode state: both mode numbers are 0, 1 or 2. -/
def ValidMode (ms_mode lowres : Int) : Prop :=
  (ms_mode = 0 ∨ ms_mode = 1 ∨ ms_mode = 2) ∧ (lowres = 0 ∨ lowres = 1 ∨ lowres = 2)

instance (ms_mode lowres : Int) : Decidable (ValidMode ms_mode lowres) := by
  unfold ValidMode; infer_instance

/-! ## The three statements of `callbackKey`, one by one -/

/-- First `if` statement of `callbackKey`: the M key. -/
def keyM (key action : Int) (t : State) : State :=
  if key = GLFW_KEY_M ∧ action = GLFW_PRESS then
    let u : State :=
      if t.ms_mode + 1 > 2 then { t with ms_mode := 0 } else { t with ms_mode := t.ms_mode + 1 }
    callbackResize u u.window_size.1 u.window_size.2
  else t

/-- Second `if` statement of `callbackKey`: the D key. -/
def keyD (key action : Int) (t : State) : State :=
  if key = GLFW_KEY_D ∧ action = GLFW_PRESS then
    let u : State := if t.ms_mode = 0 then { t with ms_mode := 2 } else { t with ms_mode := 0 }
    callbackResize u u.window_size.1 u.window_size.2
  else t

/-- Third `if` statement of `callbackKey`: the R key. -/
def keyR (key action : Int) (t : State) : State :=
  if key = GLFW_KEY_R ∧ action = GLFW_PRESS then
    let u : State :=
      if t.lowres + 1 > 2 then { t with lowres := 0 } else { t with lowres := t.lowres + 1 }
    callbackResize u u.window_size.1 u.window_size.2
  else t

/-! ## Names of the specification for the three key presses -/

/-- Mode state of the specification: the pair (multisampleMode,
resolutionDivisor). -/
def modeState (s : State) : Int × Int :=
  (s.ms_mode, s.lowres)

/-- Operation `cycleMultisampleMode` of the specification: a press of M. -/
def cycleMultisampleMode (s : State) : State :=
  callbackKey s GLFW_KEY_M 0 GLFW_PRESS 0

/-- Operation `toggleDualResolution` of the specification: a press of D. -/
def toggleDualResolution (s : State) : State :=
  callbackKey s GLFW_KEY_D 0 GLFW_PRESS 0

/-- Operation `cycleResolution` of the specification: a press of R. -/
def cycleResolution (s : State) : State :=
  callbackKey s GLFW_KEY_R 0 GLFW_PRESS 0

/-! ## Predicates on the framebuffer objects -/

/-- The image `reinitFramebuffers` allocates for a mode and an extent. -/
def targetImage (ms_mode : Int) (low : Int × Int) : TexImage :=
  if ms_mode ≠ 0 then .image2DMultisample MULTISAMPLE_SAMPLES low.1 low.2
  else .image2D low.1 low.2

/-- The context holds no framebuffer or texture besides the ones the two
handles name: either nothing is allocated, or exactly one framebuffer
`fbo_scene` and one texture `fbo_scene_color` are live. -/
def Tracked (s : State) : Prop :=
  (s.fbo_scene = 0 ∧ s.gl.framebuffers = [] ∧ s.gl.textures = []) ∨
  (s.fbo_scene ≠ 0 ∧
    (∃ a, s.gl.framebuffers = [(s.fbo_scene, a)]) ∧
    (∃ i, s.gl.textures = [(s.fbo_scene_color, i)]))

/-- The render target is allocated for the current mode and extent, and
nothing else is live. -/
def Allocated (s : State) : Prop :=
  s.fbo_scene ≠ 0 ∧
  s.gl.framebuffers = [(s.fbo_scene, s.fbo_scene_color)] ∧
  s.gl.textures = [(s.fbo_scene_color, some (targetImage s.ms_mode s.window_size_low))]

/-- The extent `callbackResize` computes, in the C arithmetic of the
source, as one expression. -/
def sizeLow (ms_mode lowres w h : Int) : Int × Int :=
  if ms_mode = 2 then
    (if lowres = 1 then ((w.tdiv 2).tdiv 2, (h.tdiv 2).tdiv 2)
     else if lowres = 2 then ((w.tdiv 4).tdiv 2, (h.tdiv 4).tdiv 2)
     else (w.tdiv 2, h.tdiv 2))
  else
    (if lowres = 1 then (w.tdiv 2, h.tdiv 2)
     else if lowres = 2 then (w.tdiv 4, h.tdiv 4)
     else (w, h))

/-- Invariant of the event loop. -/
def Inv (s : State) : Prop :=
  ValidMode s.ms_mode s.lowres ∧ 0 ≤ s.window_size.1 ∧ 0 ≤ s.window_size.2 ∧
  Allocated s ∧
  s.window_size_low = sizeLow s.ms_mode s.lowres s.window_size.1 s.window_size.2

/-- Factor between screen pixels and render-target texels in the resolve:
`2^lowres`, doubled in mode DRMS4. -/
def effectiveDivisor (ms_mode lowres : Int) : Int :=
  2 ^ lowres.toNat * (if ms_mode = 2 then 2 else 1)

/-- The resolve pass of the frame loop for one screen pixel: the uniforms
`ms_mode` and `lowres` are set from `state` before the quad is drawn. -/
def resolvePass {α : Type} [Add α] [Div α] [OfScientific α]
    (tex : Textures α) (s : State) (x y : Int) : FragOut α :=
  shader_source_resolve_frag tex s.ms_mode s.lowres (gl_FragCoord x y)

/-- The static initial state put in mode (DRMS4, HALF). -/
def stateDrmsHalf : State :=
  { state with ms_mode := 2, lowres := 1 }

/-- The static initial state put in mode (DRMS4, QUARTER). -/
def stateDrmsQuarter : State :=
  { state with ms_mode := 2, lowres := 2 }

/-- A texture of opaque white, behind both samplers. -/
def whiteTextures : Textures ℚ :=
  { texture_scene_color := fun _ _ => ⟨1, 1, 1⟩
    texture_scene_color_ms := fun _ _ => ⟨1, 1, 1⟩ }

/-! ## Framebuffer and callback lemmas -/

/-- Function `deinitFramebuffers` leaves the mode and the sizes alone. -/
theorem deinitFramebuffers_mode (s : State) :
    (deinitFramebuffers s).ms_mode = s.ms_mode ∧
    (deinitFramebuffers s).lowres = s.lowres ∧
    (deinitFramebuffers s).window_size = s.window_size ∧
    (deinitFramebuffers s).window_size_low = s.window_size_low := by
  unfold deinitFramebuffers
  split <;> simp

/-- Function `reinitFramebuffers` leaves the mode and the sizes alone. -/
theorem reinitFramebuffers_mode (s : State) :
    (reinitFramebuffers s).ms_mode = s.ms_mode ∧
    (reinitFramebuffers s).lowres = s.lowres ∧
    (reinitFramebuffers s).window_size = s.window_size ∧
    (reinitFramebuffers s).window_size_low = s.window_size_low := by
  obtain ⟨h1, h2, h3, h4⟩ := deinitFramebuffers_mode s
  unfold reinitFramebuffers
  simp only [h1]
  split <;> simp [h2, h3, h4]

/-- Function `callbackResize` keeps the mode and stores the new window size. -/
theorem callbackResize_mode (s : State) (w h : Int) :
    (callbackResize s w h).ms_mode = s.ms_mode ∧
    (callbackResize s w h).lowres = s.lowres ∧
    (callbackResize s w h).window_size = (w, h) := by
  unfold callbackResize
  simp only [reinitFramebuffers_mode]
  refine ⟨?_, ?_, ?_⟩ <;> split_ifs <;> simp

/-- Closed form of the extent `callbackResize` stores. -/
theorem callbackResize_low (s : State) (w h : Int) :
    (callbackResize s w h).window_size_low = sizeLow s.ms_mode s.lowres w h := by
  unfold callbackResize sizeLow
  simp only [reinitFramebuffers_mode]
  split_ifs <;> simp

/-- On non-negative sizes and valid modes the stored extent is the nested
floor division. -/
theorem sizeLow_floor (ms_mode lowres w h : Int) (hv : ValidMode ms_mode lowres)
    (hw : 0 ≤ w) (hh : 0 ≤ h) :
    sizeLow ms_mode lowres w h =
      (w / divisor lowres / (if ms_mode = 2 then 2 else 1),
       h / divisor lowres / (if ms_mode = 2 then 2 else 1)) := by
  obtain ⟨hm, hl⟩ := hv
  rcases hm with hm | hm | hm <;> rcases hl with hl | hl | hl <;>
    simp [hm, hl, sizeLow, divisor, Int.tdiv_eq_ediv, Int.ediv_nonneg, hw, hh]

/-! ## Target sizing -/

/-- C1, as the code has it: for a window of at least 1x1 and a valid mode
state, each dimension `callbackResize` stores in `window_size_low` is
`floor(floor(window / divisor) / (2 if DRMS4 else 1))` with no clamp; it is
at least 1 exactly when the window dimension is at least
`divisor * (2 if DRMS4 else 1)`, and then it equals the clamped value
`max(1, ...)` of the specification. -/
theorem callbackResize_extent (s : State) (w h : Int) (hw : 1 ≤ w) (hh : 1 ≤ h)
    (hv : ValidMode s.ms_mode s.lowres) :
    ((callbackResize s w h).window_size_low.1
        = w / divisor s.lowres / (if s.ms_mode = 2 then 2 else 1) ∧
     (callbackResize s w h).window_size_low.2
        = h / divisor s.lowres / (if s.ms_mode = 2 then 2 else 1)) ∧
    ((1 ≤ (callbackResize s w h).window_size_low.1
        ↔ divisor s.lowres * (if s.ms_mode = 2 then 2 else 1) ≤ w) ∧
     (1 ≤ (callbackResize s w h).window_size_low.2
        ↔ divisor s.lowres * (if s.ms_mode = 2 then 2 else 1) ≤ h)) ∧
    ((divisor s.lowres * (if s.ms_mode = 2 then 2 else 1) ≤ w →
        (callbackResize s w h).window_size_low.1 = spec_computeExtent w s.ms_mode s.lowres) ∧
     (divisor s.lowres * (if s.ms_mode = 2 then 2 else 1) ≤ h →
        (callbackResize s w h).window_size_low.2 = spec_computeExtent h s.ms_mode s.lowres)) := by
  have hw0 : 0 ≤ w := by omega
  have hh0 : 0 ≤ h := by omega
  rw [callbackResize_low, sizeLow_floor _ _ _ _ hv hw0 hh0]
  obtain ⟨hm, hl⟩ := hv
  rcases hm with hm | hm | hm <;> rcases hl with hl | hl | hl <;>
    simp [hm, hl, divisor, spec_computeExtent] <;>
    omega

/-- Witness for `callbackResize_extent`: a 1024x600 window in mode
(DRMS4, HALF). -/
theorem callbackResize_extent_witness :
    (1 : Int) ≤ 1024 ∧ (1 : Int) ≤ 600 ∧
    ValidMode stateDrmsHalf.ms_mode stateDrmsHalf.lowres ∧
    (callbackResize stateDrmsHalf 1024 600).window_size_low.1
      = 1024 / divisor stateDrmsHalf.lowres / (if stateDrmsHalf.ms_mode = 2 then 2 else 1) ∧
    (callbackResize stateDrmsHalf 1024 600).window_size_low.2
      = 600 / divisor stateDrmsHalf.lowres / (if stateDrmsHalf.ms_mode = 2 then 2 else 1) :=
  ⟨by decide, by decide, by decide,
   (callbackResize_extent stateDrmsHalf 1024 600 (by decide) (by decide) (by decide)).1⟩

/-- C1 fails as stated: a 1x1 window in mode (NONE, HALF) gets the extent
(0, 0), which is below 1 and differs from the clamped value 1. -/
theorem callbackResize_extent_unclamped :
    (callbackResize { state with ms_mode := 0, lowres := 1 } 1 1).window_size_low = (0, 0) ∧
    spec_computeExtent 1 0 1 = 1 ∧
    ¬ (1 ≤ (callbackResize { state with ms_mode := 0, lowres := 1 } 1 1).window_size_low.1) := by
  decide

/-! ## The end-to-end scenario -/

/-- C2, as the code has it: from the 1024x600 start-up state (NONE, FULL)
the target is 1024x600 with 1 sample; M gives (MSAA4, FULL), the same extent
and 4 samples; R gives (MSAA4, HALF), 512x300 and 4 samples; D then gives
(NONE, HALF), 512x300 and 1 sample, and a second D gives (DRMS4, HALF),
256x150 and 4 samples. -/
theorem scenario_M_R_D :
    ((run []).ms_mode = 0 ∧ (run []).lowres = 0 ∧
      renderTarget (run []) = some (.image2D 1024 600) ∧
      (renderTarget (run [])).map TexImage.sampleCount = some 1) ∧
    ((run [.key GLFW_KEY_M 0 GLFW_PRESS 0]).ms_mode = 1 ∧
      (run [.key GLFW_KEY_M 0 GLFW_PRESS 0]).lowres = 0 ∧
      renderTarget (run [.key GLFW_KEY_M 0 GLFW_PRESS 0])
        = some (.image2DMultisample 4 1024 600)) ∧
    ((run [.key GLFW_KEY_M 0 GLFW_PRESS 0, .key GLFW_KEY_R 0 GLFW_PRESS 0]).ms_mode = 1 ∧
      (run [.key GLFW_KEY_M 0 GLFW_PRESS 0, .key GLFW_KEY_R 0 GLFW_PRESS 0]).lowres = 1 ∧
      renderTarget (run [.key GLFW_KEY_M 0 GLFW_PRESS 0, .key GLFW_KEY_R 0 GLFW_PRESS 0])
        = some (.image2DMultisample 4 512 300)) ∧
    ((run [.key GLFW_KEY_M 0 GLFW_PRESS 0, .key GLFW_KEY_R 0 GLFW_PRESS 0,
           .key GLFW_KEY_D 0 GLFW_PRESS 0]).ms_mode = 0 ∧
      (run [.key GLFW_KEY_M 0 GLFW_PRESS 0, .key GLFW_KEY_R 0 GLFW_PRESS 0,
            .key GLFW_KEY_D 0 GLFW_PRESS 0]).lowres = 1 ∧
      renderTarget (run [.key GLFW_KEY_M 0 GLFW_PRESS 0, .key GLFW_KEY_R 0 GLFW_PRESS 0,
                         .key GLFW_KEY_D 0 GLFW_PRESS 0])
        = some (.image2D 512 300) ∧
      (renderTarget (run [.key GLFW_KEY_M 0 GLFW_PRESS 0, .key GLFW_KEY_R 0 GLFW_PRESS 0,
                          .key GLFW_KEY_D 0 GLFW_PRESS 0])).map TexImage.sampleCount
        = some 1) ∧
    ((run [.key GLFW_KEY_M 0 GLFW_PRESS 0, .key GLFW_KEY_R 0 GLFW_PRESS 0,
           .key GLFW_KEY_D 0 GLFW_PRESS 0, .key GLFW_KEY_D 0 GLFW_PRESS 0]).ms_mode = 2 ∧
      (run [.key GLFW_KEY_M 0 GLFW_PRESS 0, .key GLFW_KEY_R 0 GLFW_PRESS 0,
            .key GLFW_KEY_D 0 GLFW_PRESS 0, .key GLFW_KEY_D 0 GLFW_PRESS 0]).lowres = 1 ∧
      renderTarget (run [.key GLFW_KEY_M 0 GLFW_PRESS 0, .key GLFW_KEY_R 0 GLFW_PRESS 0,
                         .key GLFW_KEY_D 0 GLFW_PRESS 0, .key GLFW_KEY_D 0 GLFW_PRESS 0])
        = some (.image2DMultisample 4 256 150)) := by
  decide

/-- C2 fails as stated: after M, R, D the mode is NONE (0), not DRMS4 (2), the
extent is (512, 300), not (256, 150), and the target holds 1 sample per
texel, not 4. -/
theorem scenario_D_leaves_MSAA4_for_NONE :
    (run [.key GLFW_KEY_M 0 GLFW_PRESS 0, .key GLFW_KEY_R 0 GLFW_PRESS 0,
          .key GLFW_KEY_D 0 GLFW_PRESS 0]).ms_mode ≠ 2 ∧
    (run [.key GLFW_KEY_M 0 GLFW_PRESS 0, .key GLFW_KEY_R 0 GLFW_PRESS 0,
          .key GLFW_KEY_D 0 GLFW_PRESS 0]).window_size_low ≠ (256, 150) ∧
    (renderTarget (run [.key GLFW_KEY_M 0 GLFW_PRESS 0, .key GLFW_KEY_R 0 GLFW_PRESS 0,
                        .key GLFW_KEY_D 0 GLFW_PRESS 0])).map TexImage.sampleCount
      ≠ some 4 := by
  decide

/-! ## Mode transitions -/

/-- The M key press: `ms_mode` is incremented and wraps to 0 above 2. -/
theorem callbackKey_M (s : State) (scancode mods : Int) :
    (callbackKey s GLFW_KEY_M scancode GLFW_PRESS mods).ms_mode
        = (if s.ms_mode + 1 > 2 then 0 else s.ms_mode + 1) ∧
    (callbackKey s GLFW_KEY_M scancode GLFW_PRESS mods).lowres = s.lowres ∧
    (callbackKey s GLFW_KEY_M scancode GLFW_PRESS mods).window_size = s.window_size := by
  simp [callbackKey, GLFW_KEY_M, GLFW_KEY_D, GLFW_KEY_R, GLFW_PRESS, callbackResize_mode]
  split_ifs <;> simp_all

/-- The D key press: `ms_mode` 0 becomes 2, anything else becomes 0. -/
theorem callbackKey_D (s : State) (scancode mods : Int) :
    (callbackKey s GLFW_KEY_D scancode GLFW_PRESS mods).ms_mode
        = (if s.ms_mode = 0 then 2 else 0) ∧
    (callbackKey s GLFW_KEY_D scancode GLFW_PRESS mods).lowres = s.lowres ∧
    (callbackKey s GLFW_KEY_D scancode GLFW_PRESS mods).window_size = s.window_size := by
  simp [callbackKey, GLFW_KEY_M, GLFW_KEY_D, GLFW_KEY_R, GLFW_PRESS, callbackResize_mode]
  split_ifs <;> simp_all

/-- The R key press: `lowres` is incremented and wraps to 0 above 2. -/
theorem callbackKey_R (s : State) (scancode mods : Int) :
    (callbackKey s GLFW_KEY_R scancode GLFW_PRESS mods).ms_mode = s.ms_mode ∧
    (callbackKey s GLFW_KEY_R scancode GLFW_PRESS mods).lowres
        = (if s.lowres + 1 > 2 then 0 else s.lowres + 1) ∧
    (callbackKey s GLFW_KEY_R scancode GLFW_PRESS mods).window_size = s.window_size := by
  simp [callbackKey, GLFW_KEY_M, GLFW_KEY_D, GLFW_KEY_R, GLFW_PRESS, callbackResize_mode]
  split_ifs <;> simp_all

/-- C6: the D key press (`toggleDualResolution`) takes NONE to DRMS4, DRMS4 to
NONE and MSAA4 to NONE, and leaves `lowres` and the window extent as they
were, whatever the scancode and the modifier bits. -/
theorem toggleDualResolution_transitions (s : State) (scancode mods : Int) :
    (s.ms_mode = 0 → (callbackKey s GLFW_KEY_D scancode GLFW_PRESS mods).ms_mode = 2) ∧
    (s.ms_mode = 2 → (callbackKey s GLFW_KEY_D scancode GLFW_PRESS mods).ms_mode = 0) ∧
    (s.ms_mode = 1 → (callbackKey s GLFW_KEY_D scancode GLFW_PRESS mods).ms_mode = 0) ∧
    (callbackKey s GLFW_KEY_D scancode GLFW_PRESS mods).lowres = s.lowres ∧
    (callbackKey s GLFW_KEY_D scancode GLFW_PRESS mods).window_size = s.window_size ∧
    toggleDualResolution s = callbackKey s GLFW_KEY_D scancode GLFW_PRESS mods := by
  obtain ⟨h1, h2, h3⟩ := callbackKey_D s scancode mods
  refine ⟨?_, ?_, ?_, h2, h3, rfl⟩
  · intro h; rw [h1, if_pos h]
  · intro h; rw [h1, if_neg (by omega)]
  · intro h; rw [h1, if_neg (by omega)]

/-- Witness for `toggleDualResolution_transitions`: D pressed in the start-up
state, whose mode is NONE, gives DRMS4. -/
theorem toggleDualResolution_transitions_witness :
    startup.ms_mode = 0 ∧ (callbackKey startup GLFW_KEY_D 0 GLFW_PRESS 0).ms_mode = 2 :=
  ⟨by decide, (toggleDualResolution_transitions startup 0 0).1 (by decide)⟩

/-- C7: on a valid mode state M steps NONE, MSAA4, DRMS4, NONE and R steps
FULL, HALF, QUARTER, FULL; three presses of either key restore the mode
state, one or two presses do not. -/
theorem mode_cycles_have_length_three (s : State) (hv : ValidMode s.ms_mode s.lowres) :
    ((s.ms_mode = 0 → (cycleMultisampleMode s).ms_mode = 1) ∧
     (s.ms_mode = 1 → (cycleMultisampleMode s).ms_mode = 2) ∧
     (s.ms_mode = 2 → (cycleMultisampleMode s).ms_mode = 0) ∧
     (cycleMultisampleMode s).lowres = s.lowres) ∧
    ((s.lowres = 0 → (cycleResolution s).lowres = 1) ∧
     (s.lowres = 1 → (cycleResolution s).lowres = 2) ∧
     (s.lowres = 2 → (cycleResolution s).lowres = 0) ∧
     (cycleResolution s).ms_mode = s.ms_mode) ∧
    (modeState (cycleMultisampleMode (cycleMultisampleMode (cycleMultisampleMode s)))
        = modeState s ∧
     modeState (cycleMultisampleMode s) ≠ modeState s ∧
     modeState (cycleMultisampleMode (cycleMultisampleMode s)) ≠ modeState s) ∧
    (modeState (cycleResolution (cycleResolution (cycleResolution s))) = modeState s ∧
     modeState (cycleResolution s) ≠ modeState s ∧
     modeState (cycleResolution (cycleResolution s)) ≠ modeState s) := by
  have hM : ∀ t : State, (cycleMultisampleMode t).ms_mode
        = (if t.ms_mode + 1 > 2 then 0 else t.ms_mode + 1) ∧
      (cycleMultisampleMode t).lowres = t.lowres :=
    fun t => ⟨(callbackKey_M t 0 0).1, (callbackKey_M t 0 0).2.1⟩
  have hR : ∀ t : State, (cycleResolution t).ms_mode = t.ms_mode ∧
      (cycleResolution t).lowres = (if t.lowres + 1 > 2 then 0 else t.lowres + 1) :=
    fun t => ⟨(callbackKey_R t 0 0).1, (callbackKey_R t 0 0).2.1⟩
  obtain ⟨hm, hl⟩ := hv
  simp only [modeState, hM, hR, ne_eq, Prod.mk.injEq]
  rcases hm with hm | hm | hm <;> rcases hl with hl | hl | hl <;> simp [hm, hl]

/-- Witness for `mode_cycles_have_length_three`: the start-up state. -/
theorem mode_cycles_have_length_three_witness :
    ValidMode startup.ms_mode startup.lowres ∧
    modeState (cycleMultisampleMode (cycleMultisampleMode (cycleMultisampleMode startup)))
      = modeState startup :=
  ⟨by decide, (mode_cycles_have_length_three startup (by decide)).2.2.1.1⟩

/-! ## Association lists of the context -/

/-- A name filtered out of an association list is no longer found in it. -/
theorem lookup_filter_ne {β : Type} (n : Nat) (l : List (Nat × β)) :
    (l.filter (fun p => p.1 ≠ n)).lookup n = none := by
  induction l with
  | nil => simp
  | cons p l ih =>
    obtain ⟨k, v⟩ := p
    by_cases hp : k = n
    · simpa [List.filter_cons, hp] using ih
    · have hb : (n == k) = false := by simpa using fun h => hp h.symm
      simpa [List.filter_cons, hp, List.lookup, hb] using ih

/-! ## The reconfiguration invariant -/

/-- Function `callbackResize` is `reinitFramebuffers` run on the state with the new
window size and the extent `sizeLow` stored. -/
theorem callbackResize_eq (s : State) (w h : Int) :
    callbackResize s w h =
      reinitFramebuffers
        { s with window_size := (w, h), window_size_low := sizeLow s.ms_mode s.lowres w h } := by
  by_cases h1 : s.lowres = 1 <;> by_cases h2 : s.lowres = 2 <;> by_cases h3 : s.ms_mode = 2 <;>
    simp [callbackResize, sizeLow, h1, h2, h3]

/-- Function `callbackKey` is its three statements in sequence. -/
theorem callbackKey_eq (t : State) (key scancode action mods : Int) :
    callbackKey t key scancode action mods
      = keyR key action (keyD key action (keyM key action t)) := by
  rfl

/-- From a context with no stray objects, `reinitFramebuffers` leaves exactly
the new framebuffer and the new texture, allocated for the current mode and
extent. -/
theorem reinitFramebuffers_allocated (s : State) (ht : Tracked s) :
    Allocated (reinitFramebuffers s) := by
  rcases ht with ⟨h0, hf, hx⟩ | ⟨hn, ⟨a, hf⟩, ⟨i, hx⟩⟩
  · by_cases hm : s.ms_mode = 0 <;>
      simp [Allocated, reinitFramebuffers, deinitFramebuffers, glGenFramebuffers, glGenTextures,
        glBindTexture, glTexImage2D, glTexImage2DMultisample, glBindFramebuffer,
        glFramebufferTexture, setImage, setAttachment, targetImage, h0, hf, hx, hm]
  · by_cases hm : s.ms_mode = 0 <;>
      simp [Allocated, reinitFramebuffers, deinitFramebuffers, glGenFramebuffers, glGenTextures,
        glBindTexture, glTexImage2D, glTexImage2DMultisample, glBindFramebuffer,
        glFramebufferTexture, glDeleteFramebuffers, glDeleteTextures, setImage, setAttachment,
        targetImage, hn, hf, hx, hm]

/-- An allocated state has no stray objects. -/
theorem Allocated.tracked {s : State} (h : Allocated s) : Tracked s :=
  Or.inr ⟨h.1, ⟨_, h.2.1⟩, ⟨_, h.2.2⟩⟩

/-- Function `callbackResize` establishes the invariant from any state with a valid
mode and no stray objects. -/
theorem callbackResize_inv (s : State) (w h : Int) (ht : Tracked s)
    (hv : ValidMode s.ms_mode s.lowres) (hw : 0 ≤ w) (hh : 0 ≤ h) :
    Inv (callbackResize s w h) := by
  have hmode := callbackResize_mode s w h
  have hlow := callbackResize_low s w h
  refine ⟨?_, ?_, ?_, ?_, ?_⟩
  · rw [hmode.1, hmode.2.1]; exact hv
  · rw [hmode.2.2]; exact hw
  · rw [hmode.2.2]; exact hh
  · rw [callbackResize_eq]
    exact reinitFramebuffers_allocated _ ht
  · rw [hlow, hmode.1, hmode.2.1, hmode.2.2]

/-- The M statement keeps the invariant. -/
theorem keyM_inv (key action : Int) (t : State) (hi : Inv t) : Inv (keyM key action t) := by
  obtain ⟨⟨hm, hl⟩, hw, hh, ha, hlow⟩ := hi
  unfold keyM
  split
  · by_cases hc : t.ms_mode + 1 > 2
    · simp only [hc, if_true]
      exact callbackResize_inv _ _ _ ha.tracked ⟨Or.inl rfl, hl⟩ hw hh
    · simp only [hc, if_false]
      refine callbackResize_inv _ _ _ ha.tracked ⟨?_, hl⟩ hw hh
      show t.ms_mode + 1 = 0 ∨ t.ms_mode + 1 = 1 ∨ t.ms_mode + 1 = 2
      omega
  · exact ⟨⟨hm, hl⟩, hw, hh, ha, hlow⟩

/-- The D statement keeps the invariant. -/
theorem keyD_inv (key action : Int) (t : State) (hi : Inv t) : Inv (keyD key action t) := by
  obtain ⟨⟨hm, hl⟩, hw, hh, ha, hlow⟩ := hi
  unfold keyD
  split
  · by_cases hc : t.ms_mode = 0
    · simp only [hc, if_true]
      exact callbackResize_inv _ _ _ ha.tracked ⟨Or.inr (Or.inr rfl), hl⟩ hw hh
    · simp only [hc, if_false]
      exact callbackResize_inv _ _ _ ha.tracked ⟨Or.inl rfl, hl⟩ hw hh
  · exact ⟨⟨hm, hl⟩, hw, hh, ha, hlow⟩

/-- The R statement keeps the invariant. -/
theorem keyR_inv (key action : Int) (t : State) (hi : Inv t) : Inv (keyR key action t) := by
  obtain ⟨⟨hm, hl⟩, hw, hh, ha, hlow⟩ := hi
  unfold keyR
  split
  · by_cases hc : t.lowres + 1 > 2
    · simp only [hc, if_true]
      exact callbackResize_inv _ _ _ ha.tracked ⟨hm, Or.inl rfl⟩ hw hh
    · simp only [hc, if_false]
      refine callbackResize_inv _ _ _ ha.tracked ⟨hm, ?_⟩ hw hh
      show t.lowres + 1 = 0 ∨ t.lowres + 1 = 1 ∨ t.lowres + 1 = 2
      omega
  · exact ⟨⟨hm, hl⟩, hw, hh, ha, hlow⟩

/-- A key event keeps the invariant. -/
theorem callbackKey_inv (s : State) (key scancode action mods : Int) (hi : Inv s) :
    Inv (callbackKey s key scancode action mods) := by
  rw [callbackKey_eq]
  exact keyR_inv _ _ _ (keyD_inv _ _ _ (keyM_inv _ _ _ hi))

/-- The start-up state satisfies the invariant. -/
theorem startup_inv : Inv startup :=
  callbackResize_inv state _ _ (Or.inl ⟨rfl, rfl, rfl⟩) (by decide) (by decide) (by decide)

/-- Every event keeps the invariant. -/
theorem step_inv (s : State) (e : Event) (hi : Inv s) : Inv (step s e) := by
  cases e with
  | resize width height =>
    exact callbackResize_inv s _ _ hi.2.2.2.1.tracked hi.1
      (Int.ofNat_nonneg width) (Int.ofNat_nonneg height)
  | key key scancode action mods => exact callbackKey_inv s key scancode action mods hi

/-- The invariant holds after start-up and any sequence of events. -/
theorem run_inv (events : List Event) : Inv (run events) := by
  have h : ∀ (es : List Event) (s : State), Inv s → Inv (es.foldl step s) := by
    intro es
    induction es with
    | nil => intro s hs; exact hs
    | cons e es ih => intro s hs; exact ih _ (step_inv s e hs)
  exact h events startup startup_inv

/-- C3, as the code has it: after start-up and any finite sequence of resize
and key events the mode is valid and the render target attached to
`fbo_scene` is the texture `fbo_scene_color`, allocated as a multisample
image with 4 samples when `ms_mode` is not 0 and as a single-sample 2D image
when it is 0, with the extent `window_size_low`, which is the unclamped
floor-division extent of the current `window_size`, `lowres` and `ms_mode`;
in a dimension where the window is at least `divisor * (2 if DRMS4 else 1)`
this is the clamped Target Sizing value of the specification.  No other
framebuffer or texture is live. -/
theorem reconfiguration_invariant (events : List Event) :
    ValidMode (run events).ms_mode (run events).lowres ∧
    ∃ img : TexImage,
      renderTarget (run events) = some img ∧
      (img.sampleCount = 4 ↔ (run events).ms_mode ≠ 0) ∧
      (img.isMultisample = true ↔ (run events).ms_mode ≠ 0) ∧
      img.sampleCount = (if (run events).ms_mode = 0 then 1 else 4) ∧
      img.extent = (run events).window_size_low ∧
      img.extent =
        ((run events).window_size.1 / divisor (run events).lowres
            / (if (run events).ms_mode = 2 then 2 else 1),
         (run events).window_size.2 / divisor (run events).lowres
            / (if (run events).ms_mode = 2 then 2 else 1)) ∧
      (divisor (run events).lowres * (if (run events).ms_mode = 2 then 2 else 1)
          ≤ (run events).window_size.1 →
        img.extent.1
          = spec_computeExtent (run events).window_size.1 (run events).ms_mode
              (run events).lowres) ∧
      (divisor (run events).lowres * (if (run events).ms_mode = 2 then 2 else 1)
          ≤ (run events).window_size.2 →
        img.extent.2
          = spec_computeExtent (run events).window_size.2 (run events).ms_mode
              (run events).lowres) ∧
      (run events).gl.framebuffers = [((run events).fbo_scene, (run events).fbo_scene_color)] ∧
      (run events).gl.textures = [((run events).fbo_scene_color, some img)] := by
  have hI := run_inv events
  generalize run events = s at hI ⊢
  obtain ⟨hv, hw, hh, ⟨hn, hf, hx⟩, hlow⟩ := hI
  have hext : (targetImage s.ms_mode s.window_size_low).extent = s.window_size_low := by
    unfold targetImage; split <;> rfl
  have hfloor := sizeLow_floor s.ms_mode s.lowres s.window_size.1 s.window_size.2 hv hw hh
  refine ⟨hv, targetImage s.ms_mode s.window_size_low, ?_, ?_, ?_, ?_,
    hext, ?_, ?_, ?_, hf, hx⟩
  · simp [renderTarget, hf, hx, List.lookup]
  · by_cases hm : s.ms_mode = 0 <;>
      simp [targetImage, hm, TexImage.sampleCount, MULTISAMPLE_SAMPLES]
  · by_cases hm : s.ms_mode = 0 <;>
      simp [targetImage, hm, TexImage.isMultisample]
  · by_cases hm : s.ms_mode = 0 <;>
      simp [targetImage, hm, TexImage.sampleCount, MULTISAMPLE_SAMPLES]
  · rw [hext, hlow, hfloor]
  · intro hle
    rw [hext, hlow, hfloor]
    obtain ⟨hm, hl⟩ := hv
    rcases hm with hm | hm | hm <;> rcases hl with hl | hl | hl <;>
      simp [hm, hl, divisor, spec_computeExtent] at hle ⊢ <;> omega
  · intro hle
    rw [hext, hlow, hfloor]
    obtain ⟨hm, hl⟩ := hv
    rcases hm with hm | hm | hm <;> rcases hl with hl | hl | hl <;>
      simp [hm, hl, divisor, spec_computeExtent] at hle ⊢ <;> omega

/-- Witness for `reconfiguration_invariant`: after one press of M the window
is still 1024 wide, at least the divisor 1, so the allocated width is the
clamped Target Sizing value. -/
theorem reconfiguration_invariant_witness :
    divisor (run [.key GLFW_KEY_M 0 GLFW_PRESS 0]).lowres
        * (if (run [.key GLFW_KEY_M 0 GLFW_PRESS 0]).ms_mode = 2 then 2 else 1)
      ≤ (run [.key GLFW_KEY_M 0 GLFW_PRESS 0]).window_size.1 ∧
    ∃ img : TexImage,
      renderTarget (run [.key GLFW_KEY_M 0 GLFW_PRESS 0]) = some img ∧
      img.extent.1
        = spec_computeExtent (run [.key GLFW_KEY_M 0 GLFW_PRESS 0]).window_size.1
            (run [.key GLFW_KEY_M 0 GLFW_PRESS 0]).ms_mode
            (run [.key GLFW_KEY_M 0 GLFW_PRESS 0]).lowres :=
  ⟨by decide,
   (reconfiguration_invariant [.key GLFW_KEY_M 0 GLFW_PRESS 0]).2.elim
     (fun img h => ⟨img, h.1, h.2.2.2.2.2.2.1 (by decide)⟩)⟩

/-- C3 fails as stated: after a press of R and a resize to 1x1 the mode is
(NONE, HALF), the render target is allocated with extent (0, 0), and Target
Sizing as the specification words it yields 1 in each dimension. -/
theorem reconfiguration_target_unclamped :
    ((run [.key GLFW_KEY_R 0 GLFW_PRESS 0, .resize 1 1]).ms_mode = 0 ∧
     (run [.key GLFW_KEY_R 0 GLFW_PRESS 0, .resize 1 1]).lowres = 1 ∧
     (run [.key GLFW_KEY_R 0 GLFW_PRESS 0, .resize 1 1]).window_size = (1, 1)) ∧
    renderTarget (run [.key GLFW_KEY_R 0 GLFW_PRESS 0, .resize 1 1])
      = some (.image2D 0 0) ∧
    spec_computeExtent 1 0 1 = 1 ∧
    (renderTarget (run [.key GLFW_KEY_R 0 GLFW_PRESS 0, .resize 1 1])).map TexImage.extent
      ≠ some (spec_computeExtent 1 0 1, spec_computeExtent 1 0 1) := by
  decide

/-! ## Releasing the render target -/

/-- Function `reinitFramebuffers` leaves both handles non-zero. -/
theorem reinitFramebuffers_handles (s : State) :
    (reinitFramebuffers s).fbo_scene ≠ 0 ∧ (reinitFramebuffers s).fbo_scene_color ≠ 0 := by
  by_cases h0 : s.fbo_scene = 0 <;> by_cases hm : s.ms_mode = 0 <;>
    simp [reinitFramebuffers, deinitFramebuffers, glGenFramebuffers, glGenTextures,
      glDeleteFramebuffers, glDeleteTextures, h0, hm]

/-- The two handles are written only together: both are 0 in the static
initial state and both are non-zero after start-up and any sequence of
events. -/
theorem handles_paired (events : List Event) :
    (state.fbo_scene = 0 ∧ state.fbo_scene_color = 0) ∧
    ((run events).fbo_scene ≠ 0 ∧ (run events).fbo_scene_color ≠ 0) := by
  have hres : ∀ (t : State) (w h : Int),
      (callbackResize t w h).fbo_scene ≠ 0 ∧ (callbackResize t w h).fbo_scene_color ≠ 0 := by
    intro t w h
    rw [callbackResize_eq]
    exact reinitFramebuffers_handles _
  have hM : ∀ (key action : Int) (t : State), (t.fbo_scene ≠ 0 ∧ t.fbo_scene_color ≠ 0) →
      ((keyM key action t).fbo_scene ≠ 0 ∧ (keyM key action t).fbo_scene_color ≠ 0) := by
    intro key action t ht
    unfold keyM
    split
    · exact hres _ _ _
    · exact ht
  have hD : ∀ (key action : Int) (t : State), (t.fbo_scene ≠ 0 ∧ t.fbo_scene_color ≠ 0) →
      ((keyD key action t).fbo_scene ≠ 0 ∧ (keyD key action t).fbo_scene_color ≠ 0) := by
    intro key action t ht
    unfold keyD
    split
    · exact hres _ _ _
    · exact ht
  have hR : ∀ (key action : Int) (t : State), (t.fbo_scene ≠ 0 ∧ t.fbo_scene_color ≠ 0) →
      ((keyR key action t).fbo_scene ≠ 0 ∧ (keyR key action t).fbo_scene_color ≠ 0) := by
    intro key action t ht
    unfold keyR
    split
    · exact hres _ _ _
    · exact ht
  have hstep : ∀ (t : State) (e : Event), (t.fbo_scene ≠ 0 ∧ t.fbo_scene_color ≠ 0) →
      ((step t e).fbo_scene ≠ 0 ∧ (step t e).fbo_scene_color ≠ 0) := by
    intro t e ht
    cases e with
    | resize width height => exact hres _ _ _
    | key key scancode action mods =>
      show (callbackKey t key scancode action mods).fbo_scene ≠ 0 ∧
        (callbackKey t key scancode action mods).fbo_scene_color ≠ 0
      rw [callbackKey_eq]
      exact hR _ _ _ (hD _ _ _ (hM _ _ _ ht))
  have hfold : ∀ (es : List Event) (t : State), (t.fbo_scene ≠ 0 ∧ t.fbo_scene_color ≠ 0) →
      ((es.foldl step t).fbo_scene ≠ 0 ∧ (es.foldl step t).fbo_scene_color ≠ 0) := by
    intro es
    induction es with
    | nil => intro t ht; exact ht
    | cons e es ih => intro t ht; exact ih _ (hstep t e ht)
  exact ⟨⟨rfl, rfl⟩, hfold events startup (hres _ _ _)⟩

/-- C9: on every state whose two handles are set or clear together, which is
how the program writes them (`handles_paired`), `deinitFramebuffers` changes
nothing and issues no call when both handles are 0; after one call both
handles are 0, the framebuffer and then the texture having been deleted when
they were allocated; and a second call in a row gives the same state as the
first. -/
theorem deinitFramebuffers_idempotent (s : State)
    (hp : s.fbo_scene = 0 ↔ s.fbo_scene_color = 0) :
    ((s.fbo_scene = 0 ∧ s.fbo_scene_color = 0) → deinitFramebuffers s = s) ∧
    ((deinitFramebuffers s).fbo_scene = 0 ∧ (deinitFramebuffers s).fbo_scene_color = 0) ∧
    (s.fbo_scene ≠ 0 →
      (deinitFramebuffers s).gl.log
        = s.gl.log ++ [.DeleteFramebuffers s.fbo_scene, .DeleteTextures s.fbo_scene_color] ∧
      (deinitFramebuffers s).gl.framebuffers.lookup s.fbo_scene = none ∧
      (deinitFramebuffers s).gl.textures.lookup s.fbo_scene_color = none) ∧
    deinitFramebuffers (deinitFramebuffers s) = deinitFramebuffers s := by
  refine ⟨?_, ?_, ?_, ?_⟩
  · intro h
    simp [deinitFramebuffers, h.1]
  · by_cases h : s.fbo_scene = 0
    · simp [deinitFramebuffers, h, hp.mp h]
    · simp [deinitFramebuffers, h]
  · intro h
    simp only [deinitFramebuffers, h, if_false, glDeleteFramebuffers, glDeleteTextures,
      lookup_filter_ne]
    simp
  · by_cases h : s.fbo_scene = 0
    · simp [deinitFramebuffers, h]
    · simp [deinitFramebuffers, h]

/-- Witness for `deinitFramebuffers_idempotent`: the start-up state, whose
framebuffer is 1 and whose texture is 2. -/
theorem deinitFramebuffers_idempotent_witness :
    (startup.fbo_scene = 0 ↔ startup.fbo_scene_color = 0) ∧
    ((deinitFramebuffers startup).fbo_scene = 0 ∧
     (deinitFramebuffers startup).fbo_scene_color = 0) :=
  ⟨by decide, (deinitFramebuffers_idempotent startup (by decide)).2.1⟩

/-! ## The resolve shader at a screen pixel -/

/-- Converting the centre of a pixel to integers gives the pixel. -/
theorem ivec_gl_FragCoord (x y : Int) (hx : 0 ≤ x) (hy : 0 ≤ y) :
    ivec (gl_FragCoord x y).1 = x ∧ ivec (gl_FragCoord x y).2 = y := by
  have key : ∀ z : Int, 0 ≤ z → ivec ((z : ℚ) + 0.5) = z := by
    intro z hz
    have h0 : (0 : ℚ) ≤ (z : ℚ) + 0.5 := by
      have : (0 : ℚ) ≤ (z : ℚ) := by exact_mod_cast hz
      norm_num
      linarith
    unfold ivec
    rw [if_pos h0, Int.floor_eq_iff]
    constructor <;> norm_num
  exact ⟨key x hx, key y hy⟩

/-- The margin test `gl_FragCoord < 20.0` on a pixel centre is `< 20` on the
pixel. -/
theorem gl_FragCoord_lt_twenty (x y : Int) :
    ((gl_FragCoord x y).1 < 20.0 ↔ x < 20) ∧ ((gl_FragCoord x y).2 < 20.0 ↔ y < 20) := by
  have key : ∀ z : Int, ((z : ℚ) + 0.5 < 20.0 ↔ z < 20) := by
    intro z
    constructor
    · intro h
      by_contra hc
      have h20 : (20 : ℚ) ≤ (z : ℚ) := by exact_mod_cast (not_lt.mp hc)
      norm_num at h
      linarith
    · intro h
      have h19 : (z : ℚ) ≤ 19 := by exact_mod_cast (show z ≤ 19 by omega)
      norm_num
      linarith
  exact ⟨key x, key y⟩

/-- The shift `1 << lowres` is 1, 2, 4 on the valid resolution modes. -/
theorem shl_one_valid (lowres : Int) (hl : lowres = 0 ∨ lowres = 1 ∨ lowres = 2) :
    shl 1 lowres = divisor lowres ∧ shl 1 lowres = 2 ^ lowres.toNat ∧
    (shl 1 lowres = 1 ∨ shl 1 lowres = 2 ∨ shl 1 lowres = 4) := by
  rcases hl with h | h | h <;> subst h <;> decide

/-- On a non-negative coordinate the truncating operations of the shader
are floor division and the usual remainder. -/
theorem texel_floor (x f : Int) (hx : 0 ≤ x) (hf : f = 1 ∨ f = 2 ∨ f = 4) :
    x.tdiv f = x / f ∧ (x / f).tdiv 2 = x / (2 * f) ∧ (x / f).tmod 2 = (x / f) % 2 := by
  have hf0 : 0 ≤ f := by omega
  have h2 : 0 ≤ x / f := Int.ediv_nonneg hx hf0
  refine ⟨Int.tdiv_eq_ediv hx hf0, ?_, ?_⟩
  · rw [Int.tdiv_eq_ediv h2 (by norm_num)]
    rcases hf with h | h | h <;> subst h <;> omega
  · rw [Int.tmod_eq_emod h2 (by norm_num)]

/-- What `resolve_sample` does for the screen pixel (x, y), in floor
arithmetic, with `f = 1 << lowres`. -/
theorem resolve_sample_pixel {α : Type} [Add α] [Div α] [OfScientific α]
    (tex : Textures α) (ms_mode lowres x y : Int)
    (hl : lowres = 0 ∨ lowres = 1 ∨ lowres = 2) (hx : 0 ≤ x) (hy : 0 ≤ y) :
    resolve_sample tex ms_mode lowres (gl_FragCoord x y) =
      if ms_mode = 1 then
        { texel_coord := (x / shl 1 lowres, y / shl 1 lowres)
          fetches :=
            [⟨.texture_scene_color_ms, (x / shl 1 lowres, y / shl 1 lowres), 0⟩,
             ⟨.texture_scene_color_ms, (x / shl 1 lowres, y / shl 1 lowres), 1⟩,
             ⟨.texture_scene_color_ms, (x / shl 1 lowres, y / shl 1 lowres), 2⟩,
             ⟨.texture_scene_color_ms, (x / shl 1 lowres, y / shl 1 lowres), 3⟩]
          rgb :=
            ((((tex.texture_scene_color_ms (x / shl 1 lowres, y / shl 1 lowres) 0).add
                (tex.texture_scene_color_ms (x / shl 1 lowres, y / shl 1 lowres) 1)).add
                (tex.texture_scene_color_ms (x / shl 1 lowres, y / shl 1 lowres) 2)).add
                (tex.texture_scene_color_ms (x / shl 1 lowres, y / shl 1 lowres) 3)).div 4.0 }
      else if ms_mode = 2 then
        { texel_coord := (x / (2 * shl 1 lowres), y / (2 * shl 1 lowres))
          fetches :=
            [⟨.texture_scene_color_ms, (x / (2 * shl 1 lowres), y / (2 * shl 1 lowres)),
              (x / shl 1 lowres) % 2 + (y / shl 1 lowres) % 2 * 2⟩]
          rgb :=
            tex.texture_scene_color_ms (x / (2 * shl 1 lowres), y / (2 * shl 1 lowres))
              ((x / shl 1 lowres) % 2 + (y / shl 1 lowres) % 2 * 2) }
      else
        { texel_coord := (x / shl 1 lowres, y / shl 1 lowres)
          fetches := [⟨.texture_scene_color, (x / shl 1 lowres, y / shl 1 lowres), 0⟩]
          rgb := tex.texture_scene_color (x / shl 1 lowres, y / shl 1 lowres) 0 } := by
  obtain ⟨ix, iy⟩ := ivec_gl_FragCoord x y hx hy
  obtain ⟨ax, bx, cx⟩ := texel_floor x (shl 1 lowres) hx (shl_one_valid lowres hl).2.2
  obtain ⟨ay, by_, cy⟩ := texel_floor y (shl 1 lowres) hy (shl_one_valid lowres hl).2.2
  unfold resolve_sample
  simp only [ix, iy, ax, ay, bx, by_, cx, cy]


/-- The texel `resolve_sample` ends on is the pixel divided by the effective
divisor, and every fetch is made at that texel. -/
theorem resolve_sample_texel {α : Type} [Add α] [Div α] [OfScientific α]
    (tex : Textures α) (ms_mode lowres x y : Int)
    (hl : lowres = 0 ∨ lowres = 1 ∨ lowres = 2) (hx : 0 ≤ x) (hy : 0 ≤ y) :
    (resolve_sample tex ms_mode lowres (gl_FragCoord x y)).texel_coord
      = (x / effectiveDivisor ms_mode lowres, y / effectiveDivisor ms_mode lowres) ∧
    (resolve_sample tex ms_mode lowres (gl_FragCoord x y)).fetches ≠ [] ∧
    ∀ F ∈ (resolve_sample tex ms_mode lowres (gl_FragCoord x y)).fetches,
      F.P = (x / effectiveDivisor ms_mode lowres, y / effectiveDivisor ms_mode lowres) := by
  rw [resolve_sample_pixel tex ms_mode lowres x y hl hx hy]
  have hs := (shl_one_valid lowres hl).2.1
  unfold effectiveDivisor
  rw [← hs]
  by_cases h1 : ms_mode = 1
  · have h2 : ms_mode ≠ 2 := by omega
    simp [h1]
  · by_cases h2 : ms_mode = 2
    · simp [h2, mul_comm]
    · simp [h1, h2]

/-- The whole shader at the screen pixel (x, y): it fetches what
`resolve_sample` fetches, and the overlay decides the colour by the pixel and
the parity of the texel fetched, red taking precedence over blue. -/
theorem shader_pixel {α : Type} [Add α] [Div α] [OfScientific α]
    (tex : Textures α) (ms_mode lowres x y : Int)
    (hl : lowres = 0 ∨ lowres = 1 ∨ lowres = 2) (hx : 0 ≤ x) (hy : 0 ≤ y) :
    (shader_source_resolve_frag tex ms_mode lowres (gl_FragCoord x y)).texel_coord
      = (resolve_sample tex ms_mode lowres (gl_FragCoord x y)).texel_coord ∧
    (shader_source_resolve_frag tex ms_mode lowres (gl_FragCoord x y)).fetches
      = (resolve_sample tex ms_mode lowres (gl_FragCoord x y)).fetches ∧
    (shader_source_resolve_frag tex ms_mode lowres (gl_FragCoord x y)).rgb
      = (if y < 20 ∧ (x / effectiveDivisor ms_mode lowres) % 2 = 0 then ⟨1.0, 0.0, 0.0⟩
         else if x < 20 ∧ (y / effectiveDivisor ms_mode lowres) % 2 = 0 then ⟨0.0, 0.0, 1.0⟩
         else (resolve_sample tex ms_mode lowres (gl_FragCoord x y)).rgb) := by
  obtain ⟨ht, -, -⟩ := resolve_sample_texel tex ms_mode lowres x y hl hx hy
  obtain ⟨gx, gy⟩ := gl_FragCoord_lt_twenty x y
  have hd : 0 ≤ effectiveDivisor ms_mode lowres := by
    unfold effectiveDivisor; positivity
  have mx : (x / effectiveDivisor ms_mode lowres).tmod 2 = (x / effectiveDivisor ms_mode lowres) % 2 :=
    Int.tmod_eq_emod (Int.ediv_nonneg hx hd) (by norm_num)
  have my : (y / effectiveDivisor ms_mode lowres).tmod 2 = (y / effectiveDivisor ms_mode lowres) % 2 :=
    Int.tmod_eq_emod (Int.ediv_nonneg hy hd) (by norm_num)
  unfold shader_source_resolve_frag resolve_overlay
  simp only [gx, gy, ht, mx, my]
  by_cases c1 : x < 20 ∧ (y / effectiveDivisor ms_mode lowres) % 2 = 0 <;>
  by_cases c2 : y < 20 ∧ (x / effectiveDivisor ms_mode lowres) % 2 = 0 <;>
  simp only [c1, c2, if_true, if_false, ht, mx, my, and_self]


/-- Fetch list of the shader in mode DRMS4. -/
theorem shader_fetches_DRMS4 {α : Type} [Add α] [Div α] [OfScientific α]
    (tex : Textures α) (lowres x y : Int)
    (hl : lowres = 0 ∨ lowres = 1 ∨ lowres = 2) (hx : 0 ≤ x) (hy : 0 ≤ y) :
    (shader_source_resolve_frag tex 2 lowres (gl_FragCoord x y)).fetches =
      [⟨.texture_scene_color_ms, (x / (2 * shl 1 lowres), y / (2 * shl 1 lowres)),
        (x / shl 1 lowres) % 2 + (y / shl 1 lowres) % 2 * 2⟩] := by
  rw [(shader_pixel tex 2 lowres x y hl hx hy).2.1, resolve_sample_pixel tex 2 lowres x y hl hx hy]
  simp

/-- The effective divisor is 1, 2, 4 or 8 on a valid mode state. -/
theorem effectiveDivisor_valid (ms_mode lowres : Int) (hv : ValidMode ms_mode lowres) :
    effectiveDivisor ms_mode lowres = 1 ∨ effectiveDivisor ms_mode lowres = 2 ∨
    effectiveDivisor ms_mode lowres = 4 ∨ effectiveDivisor ms_mode lowres = 8 := by
  obtain ⟨hm, hl⟩ := hv
  rcases hm with hm | hm | hm <;> rcases hl with hl | hl | hl <;> subst hm <;> subst hl <;>
    decide

/-- The extent `callbackResize` stores is the window divided by the
effective divisor of the resolve. -/
theorem callbackResize_low_effective (s : State) (W H : Int)
    (hv : ValidMode s.ms_mode s.lowres) (hW : 0 ≤ W) (hH : 0 ≤ H) :
    (callbackResize s W H).window_size_low
      = (W / effectiveDivisor s.ms_mode s.lowres, H / effectiveDivisor s.ms_mode s.lowres) := by
  rw [callbackResize_low, sizeLow_floor _ _ _ _ hv hW hH]
  obtain ⟨hm, hl⟩ := hv
  rcases hm with hm | hm | hm <;> rcases hl with hl | hl | hl <;>
    simp [hm, hl, divisor, effectiveDivisor] <;> constructor <;> omega

/-- Every coordinate below `W` lands on a texel below `W / d` exactly when
`d` divides `W`. -/
theorem div_lt_div_iff_dvd (d W : Int) (hd : d = 1 ∨ d = 2 ∨ d = 4 ∨ d = 8) (hW : 1 ≤ W) :
    (∀ x : Int, 0 ≤ x → x < W → x / d < W / d) ↔ d ∣ W := by
  constructor
  · intro h
    have h1 := h (W - 1) (by omega) (by omega)
    rcases hd with hd | hd | hd | hd <;> subst hd <;> omega
  · intro h x hx hxW
    rcases hd with hd | hd | hd | hd <;> subst hd <;> omega


/-! ## Resolve mapping -/

/-- C4: in mode DRMS4, with `f = 2^lowres`, the shader run for the screen pixel
(x, y) fetches exactly one sample: texel `(x / (2f), y / (2f))`, sample
`(x / f) mod 2 + 2 * ((y / f) mod 2)`, and that sample is the resolved
colour.  At FULL the four pixels of the aligned 2x2 block with lower-left
pixel `(2x, 2y)` all read texel `(x, y)`, with sample 0 for the lower-left,
1 for the lower-right, 2 for the upper-left and 3 for the upper-right
pixel; so do the pixels (0,0), (1,0), (0,1), (1,1) with texel (0,0). -/
theorem resolve_DRMS4_mapping {α : Type} [Add α] [Div α] [OfScientific α]
    (tex : Textures α) (lowres x y : Int)
    (hl : lowres = 0 ∨ lowres = 1 ∨ lowres = 2) (hx : 0 ≤ x) (hy : 0 ≤ y) :
    ((shader_source_resolve_frag tex 2 lowres (gl_FragCoord x y)).fetches =
        [⟨.texture_scene_color_ms,
          (x / (2 * 2 ^ lowres.toNat), y / (2 * 2 ^ lowres.toNat)),
          (x / 2 ^ lowres.toNat) % 2 + 2 * ((y / 2 ^ lowres.toNat) % 2)⟩] ∧
     (resolve_sample tex 2 lowres (gl_FragCoord x y)).rgb =
        tex.texture_scene_color_ms
          (x / (2 * 2 ^ lowres.toNat), y / (2 * 2 ^ lowres.toNat))
          ((x / 2 ^ lowres.toNat) % 2 + 2 * ((y / 2 ^ lowres.toNat) % 2))) ∧
    ((shader_source_resolve_frag tex 2 0 (gl_FragCoord (2 * x) (2 * y))).fetches
        = [⟨.texture_scene_color_ms, (x, y), 0⟩] ∧
     (shader_source_resolve_frag tex 2 0 (gl_FragCoord (2 * x + 1) (2 * y))).fetches
        = [⟨.texture_scene_color_ms, (x, y), 1⟩] ∧
     (shader_source_resolve_frag tex 2 0 (gl_FragCoord (2 * x) (2 * y + 1))).fetches
        = [⟨.texture_scene_color_ms, (x, y), 2⟩] ∧
     (shader_source_resolve_frag tex 2 0 (gl_FragCoord (2 * x + 1) (2 * y + 1))).fetches
        = [⟨.texture_scene_color_ms, (x, y), 3⟩]) ∧
    ((shader_source_resolve_frag tex 2 0 (gl_FragCoord 0 0)).fetches
        = [⟨.texture_scene_color_ms, (0, 0), 0⟩] ∧
     (shader_source_resolve_frag tex 2 0 (gl_FragCoord 1 0)).fetches
        = [⟨.texture_scene_color_ms, (0, 0), 1⟩] ∧
     (shader_source_resolve_frag tex 2 0 (gl_FragCoord 0 1)).fetches
        = [⟨.texture_scene_color_ms, (0, 0), 2⟩] ∧
     (shader_source_resolve_frag tex 2 0 (gl_FragCoord 1 1)).fetches
        = [⟨.texture_scene_color_ms, (0, 0), 3⟩]) := by
  have hs := (shl_one_valid lowres hl).2.1
  have h0 : shl 1 0 = 1 := by decide
  have full : ∀ a b : Int, 0 ≤ a → 0 ≤ b →
      (shader_source_resolve_frag tex 2 0 (gl_FragCoord a b)).fetches
        = [⟨.texture_scene_color_ms, (a / 2, b / 2), a % 2 + b % 2 * 2⟩] := by
    intro a b ha hb
    rw [shader_fetches_DRMS4 tex 0 a b (Or.inl rfl) ha hb, h0]
    simp
  refine ⟨⟨?_, ?_⟩, ⟨?_, ?_, ?_, ?_⟩, ⟨?_, ?_, ?_, ?_⟩⟩
  · rw [shader_fetches_DRMS4 tex lowres x y hl hx hy, hs, mul_comm (y / 2 ^ lowres.toNat % 2) 2]
  · rw [resolve_sample_pixel tex 2 lowres x y hl hx hy, hs,
      mul_comm (y / 2 ^ lowres.toNat % 2) 2]
    simp
  · rw [full _ _ (by omega) (by omega)]
    have e1 : 2 * x / 2 = x := by omega
    have e2 : 2 * y / 2 = y := by omega
    have e3 : 2 * x % 2 + 2 * y % 2 * 2 = 0 := by omega
    rw [e1, e2, e3]
  · rw [full _ _ (by omega) (by omega)]
    have e1 : (2 * x + 1) / 2 = x := by omega
    have e2 : 2 * y / 2 = y := by omega
    have e3 : (2 * x + 1) % 2 + 2 * y % 2 * 2 = 1 := by omega
    rw [e1, e2, e3]
  · rw [full _ _ (by omega) (by omega)]
    have e1 : 2 * x / 2 = x := by omega
    have e2 : (2 * y + 1) / 2 = y := by omega
    have e3 : 2 * x % 2 + (2 * y + 1) % 2 * 2 = 2 := by omega
    rw [e1, e2, e3]
  · rw [full _ _ (by omega) (by omega)]
    have e1 : (2 * x + 1) / 2 = x := by omega
    have e2 : (2 * y + 1) / 2 = y := by omega
    have e3 : (2 * x + 1) % 2 + (2 * y + 1) % 2 * 2 = 3 := by omega
    rw [e1, e2, e3]
  · rw [full 0 0 (by decide) (by decide)]; rfl
  · rw [full 1 0 (by decide) (by decide)]; rfl
  · rw [full 0 1 (by decide) (by decide)]; rfl
  · rw [full 1 1 (by decide) (by decide)]; rfl

/-- Witness for `resolve_DRMS4_mapping`: the screen pixel (5, 2) at HALF reads
sample 2 of texel (1, 0). -/
theorem resolve_DRMS4_mapping_witness :
    ((1 : Int) = 0 ∨ (1 : Int) = 1 ∨ (1 : Int) = 2) ∧ (0 : Int) ≤ 5 ∧ (0 : Int) ≤ 2 ∧
    (shader_source_resolve_frag whiteTextures 2 1 (gl_FragCoord 5 2)).fetches =
      [⟨.texture_scene_color_ms,
        (5 / (2 * 2 ^ (1 : Int).toNat), 2 / (2 * 2 ^ (1 : Int).toNat)),
        (5 / 2 ^ (1 : Int).toNat) % 2 + 2 * ((2 / 2 ^ (1 : Int).toNat) % 2)⟩] :=
  ⟨by decide, by decide, by decide,
   (resolve_DRMS4_mapping whiteTextures 1 5 2 (by decide) (by decide) (by decide)).1.1⟩

/-- C8: in the modes NONE and MSAA4 the shader run for the screen pixel (x, y)
fetches at texel `(x / f, y / f)` with `f` = 1, 2, 4 for FULL, HALF,
QUARTER: NONE makes the single fetch of the plain texture, which is the
resolved colour, and MSAA4 fetches the samples 0, 1, 2, 3 of that texel, whose
sum divided by 4.0 is the resolved colour.  With NONE and HALF the pixel
(10, 10) reads texel (5, 5). -/
theorem resolve_NONE_MSAA4_texel {α : Type} [Add α] [Div α] [OfScientific α]
    (tex : Textures α) (ms_mode lowres x y : Int) (hm : ms_mode = 0 ∨ ms_mode = 1)
    (hl : lowres = 0 ∨ lowres = 1 ∨ lowres = 2) (hx : 0 ≤ x) (hy : 0 ≤ y) :
    (shader_source_resolve_frag tex ms_mode lowres (gl_FragCoord x y)).texel_coord
      = (x / divisor lowres, y / divisor lowres) ∧
    (shader_source_resolve_frag tex ms_mode lowres (gl_FragCoord x y)).fetches =
      (if ms_mode = 0 then
        [⟨.texture_scene_color, (x / divisor lowres, y / divisor lowres), 0⟩]
       else
        [⟨.texture_scene_color_ms, (x / divisor lowres, y / divisor lowres), 0⟩,
         ⟨.texture_scene_color_ms, (x / divisor lowres, y / divisor lowres), 1⟩,
         ⟨.texture_scene_color_ms, (x / divisor lowres, y / divisor lowres), 2⟩,
         ⟨.texture_scene_color_ms, (x / divisor lowres, y / divisor lowres), 3⟩]) ∧
    (resolve_sample tex ms_mode lowres (gl_FragCoord x y)).rgb =
      (if ms_mode = 0 then
        tex.texture_scene_color (x / divisor lowres, y / divisor lowres) 0
       else
        ((((tex.texture_scene_color_ms (x / divisor lowres, y / divisor lowres) 0).add
            (tex.texture_scene_color_ms (x / divisor lowres, y / divisor lowres) 1)).add
            (tex.texture_scene_color_ms (x / divisor lowres, y / divisor lowres) 2)).add
            (tex.texture_scene_color_ms (x / divisor lowres, y / divisor lowres) 3)).div 4.0) ∧
    (shader_source_resolve_frag tex 0 1 (gl_FragCoord 10 10)).fetches
      = [⟨.texture_scene_color, (5, 5), 0⟩] := by
  have hs := (shl_one_valid lowres hl).1
  have h1 : shl 1 1 = 2 := by decide
  obtain ⟨p1, p2, -⟩ := shader_pixel tex ms_mode lowres x y hl hx hy
  refine ⟨?_, ?_, ?_, ?_⟩
  · rw [p1, resolve_sample_pixel tex ms_mode lowres x y hl hx hy, hs]
    rcases hm with hm | hm <;> subst hm <;> simp
  · rw [p2, resolve_sample_pixel tex ms_mode lowres x y hl hx hy, hs]
    rcases hm with hm | hm <;> subst hm <;> simp
  · rw [resolve_sample_pixel tex ms_mode lowres x y hl hx hy, hs]
    rcases hm with hm | hm <;> subst hm <;> simp
  · rw [(shader_pixel tex 0 1 10 10 (by decide) (by decide) (by decide)).2.1,
      resolve_sample_pixel tex 0 1 10 10 (by decide) (by decide) (by decide), h1]
    simp

/-- Witness for `resolve_NONE_MSAA4_texel`: mode MSAA4 at QUARTER, screen
pixel (9, 6). -/
theorem resolve_NONE_MSAA4_texel_witness :
    ((1 : Int) = 0 ∨ (1 : Int) = 1) ∧ ((2 : Int) = 0 ∨ (2 : Int) = 1 ∨ (2 : Int) = 2) ∧
    (0 : Int) ≤ 9 ∧ (0 : Int) ≤ 6 ∧
    (shader_source_resolve_frag whiteTextures 1 2 (gl_FragCoord 9 6)).texel_coord
      = (9 / divisor 2, 6 / divisor 2) :=
  ⟨by decide, by decide, by decide, by decide,
   (resolve_NONE_MSAA4_texel whiteTextures 1 2 9 6 (by decide) (by decide) (by decide)
      (by decide)).1⟩

/-! ## Debug overlay -/

/-- C5, as the code has it: in every mode the shader run for the screen pixel
(x, y) makes all its fetches at one texel, `(x / d, y / d)` with `d` the
effective divisor, and the output colour is pure red when `y < 20` and the
column index of that texel is even; otherwise pure blue when `x < 20` and
its row index is even; otherwise the resolved colour.  So the blue rule of
the left margin holds where the red rule of the bottom margin does not
apply, and red wins where both apply.  Alpha is 1.0. -/
theorem resolve_overlay_colour {α : Type} [Add α] [Div α] [OfScientific α]
    (tex : Textures α) (ms_mode lowres x y : Int)
    (hl : lowres = 0 ∨ lowres = 1 ∨ lowres = 2) (hx : 0 ≤ x) (hy : 0 ≤ y) :
    (∀ F ∈ (shader_source_resolve_frag tex ms_mode lowres (gl_FragCoord x y)).fetches,
      F.P = (shader_source_resolve_frag tex ms_mode lowres (gl_FragCoord x y)).texel_coord) ∧
    (shader_source_resolve_frag tex ms_mode lowres (gl_FragCoord x y)).texel_coord
      = (x / effectiveDivisor ms_mode lowres, y / effectiveDivisor ms_mode lowres) ∧
    (shader_source_resolve_frag tex ms_mode lowres (gl_FragCoord x y)).rgb =
      (if y < 20 ∧
          (shader_source_resolve_frag tex ms_mode lowres (gl_FragCoord x y)).texel_coord.1 % 2 = 0
       then ⟨1.0, 0.0, 0.0⟩
       else if x < 20 ∧
          (shader_source_resolve_frag tex ms_mode lowres (gl_FragCoord x y)).texel_coord.2 % 2 = 0
       then ⟨0.0, 0.0, 1.0⟩
       else (resolve_sample tex ms_mode lowres (gl_FragCoord x y)).rgb) ∧
    (shader_source_resolve_frag tex ms_mode lowres (gl_FragCoord x y)).a = 1.0 := by
  obtain ⟨p1, p2, p3⟩ := shader_pixel tex ms_mode lowres x y hl hx hy
  obtain ⟨t1, -, t3⟩ := resolve_sample_texel tex ms_mode lowres x y hl hx hy
  refine ⟨?_, ?_, ?_, rfl⟩
  · intro F hF
    rw [p2] at hF
    rw [p1, t1]
    exact t3 F hF
  · rw [p1, t1]
  · rw [p3, p1, t1]

/-- Witness for `resolve_overlay_colour`: mode DRMS4 at HALF, screen pixel
(3, 40). -/
theorem resolve_overlay_colour_witness :
    ((1 : Int) = 0 ∨ (1 : Int) = 1 ∨ (1 : Int) = 2) ∧ (0 : Int) ≤ 3 ∧ (0 : Int) ≤ 40 ∧
    (shader_source_resolve_frag whiteTextures 2 1 (gl_FragCoord 3 40)).texel_coord
      = (3 / effectiveDivisor 2 1, 40 / effectiveDivisor 2 1) :=
  ⟨by decide, by decide, by decide,
   (resolve_overlay_colour whiteTextures 2 1 3 40 (by decide) (by decide) (by decide)).2.1⟩

/-- C5 fails as stated, on a white render target in mode (NONE, FULL): the
screen pixel (0, 0) has `x < 20` and the even row index 0, and its colour is
red, not blue; the screen pixel (1, 0) has `y < 20` and the odd column index
1, and its colour is blue, not the resolved white. -/
theorem overlay_margins_overlap :
    ((shader_source_resolve_frag whiteTextures 0 0 (gl_FragCoord 0 0)).texel_coord = (0, 0) ∧
     (shader_source_resolve_frag whiteTextures 0 0 (gl_FragCoord 0 0)).rgb = ⟨1, 0, 0⟩ ∧
     (shader_source_resolve_frag whiteTextures 0 0 (gl_FragCoord 0 0)).rgb ≠ ⟨0, 0, 1⟩) ∧
    ((shader_source_resolve_frag whiteTextures 0 0 (gl_FragCoord 1 0)).texel_coord = (1, 0) ∧
     (shader_source_resolve_frag whiteTextures 0 0 (gl_FragCoord 1 0)).rgb = ⟨0, 0, 1⟩ ∧
     (resolve_sample whiteTextures 0 0 (gl_FragCoord 1 0)).rgb = ⟨1, 1, 1⟩ ∧
     (shader_source_resolve_frag whiteTextures 0 0 (gl_FragCoord 1 0)).rgb
       ≠ (resolve_sample whiteTextures 0 0 (gl_FragCoord 1 0)).rgb) := by
  have hd : effectiveDivisor 0 0 = 1 := by decide
  have hs : shl 1 0 = 1 := by decide
  obtain ⟨a1, -, a3⟩ := shader_pixel whiteTextures 0 0 0 0 (by decide) (by decide) (by decide)
  obtain ⟨b1, -, b3⟩ := shader_pixel whiteTextures 0 0 1 0 (by decide) (by decide) (by decide)
  have ra := resolve_sample_pixel whiteTextures 0 0 0 0 (by decide) (by decide) (by decide)
  have rb := resolve_sample_pixel whiteTextures 0 0 1 0 (by decide) (by decide) (by decide)
  rw [a1, a3, b1, b3, ra, rb, hd, hs]
  norm_num [whiteTextures]


/-! ## Texel fetches against the allocated extent -/

/-- C10: after `callbackResize` with a window of W x H, both at least 1, in a
valid mode state, let `d` be the effective divisor.  Every fetch of the
resolve pass, for every screen pixel inside the window, lies inside the
extent `window_size_low` if and only if `d` divides both W and H.  When it
does, every texel of the render target is the texel fetched for some pixel
inside the window, and in mode DRMS4 every one of its samples 0..3 is the
one fetched for some pixel inside the window. -/
theorem resolve_fetch_in_bounds_iff {α : Type} [Add α] [Div α] [OfScientific α]
    (tex : Textures α) (s : State) (W H : Int) (hW : 1 ≤ W) (hH : 1 ≤ H)
    (hv : ValidMode s.ms_mode s.lowres) :
    ((∀ x y : Int, 0 ≤ x → x < W → 0 ≤ y → y < H →
        ∀ F ∈ (resolvePass tex (callbackResize s W H) x y).fetches,
          (0 ≤ F.P.1 ∧ F.P.1 < (callbackResize s W H).window_size_low.1) ∧
          (0 ≤ F.P.2 ∧ F.P.2 < (callbackResize s W H).window_size_low.2))
      ↔ (effectiveDivisor s.ms_mode s.lowres ∣ W ∧ effectiveDivisor s.ms_mode s.lowres ∣ H)) ∧
    ((effectiveDivisor s.ms_mode s.lowres ∣ W ∧ effectiveDivisor s.ms_mode s.lowres ∣ H) →
      ∀ tx ty : Int,
        0 ≤ tx → tx < (callbackResize s W H).window_size_low.1 →
        0 ≤ ty → ty < (callbackResize s W H).window_size_low.2 →
        (∃ x y : Int, (0 ≤ x ∧ x < W) ∧ (0 ≤ y ∧ y < H) ∧
          (resolvePass tex (callbackResize s W H) x y).fetches ≠ [] ∧
          ∀ F ∈ (resolvePass tex (callbackResize s W H) x y).fetches, F.P = (tx, ty)) ∧
        (s.ms_mode = 2 → ∀ i : Int, 0 ≤ i → i < 4 →
          ∃ x y : Int, (0 ≤ x ∧ x < W) ∧ (0 ≤ y ∧ y < H) ∧
            (resolvePass tex (callbackResize s W H) x y).fetches
              = [⟨.texture_scene_color_ms, (tx, ty), i⟩])) := by
  have hW0 : 0 ≤ W := by omega
  have hH0 : 0 ≤ H := by omega
  obtain ⟨hmode, hlow, -⟩ := callbackResize_mode s W H
  have hext := callbackResize_low_effective s W H hv hW0 hH0
  have hd := effectiveDivisor_valid s.ms_mode s.lowres hv
  have hd0 : 0 ≤ effectiveDivisor s.ms_mode s.lowres := by omega
  have hfetch : ∀ x y : Int, 0 ≤ x → 0 ≤ y →
      (resolvePass tex (callbackResize s W H) x y).fetches ≠ [] ∧
      ∀ F ∈ (resolvePass tex (callbackResize s W H) x y).fetches,
        F.P = (x / effectiveDivisor s.ms_mode s.lowres,
               y / effectiveDivisor s.ms_mode s.lowres) := by
    intro x y hx hy
    unfold resolvePass
    rw [hmode, hlow, (shader_pixel tex s.ms_mode s.lowres x y hv.2 hx hy).2.1]
    exact (resolve_sample_texel tex s.ms_mode s.lowres x y hv.2 hx hy).2
  rw [hext]
  refine ⟨⟨?_, ?_⟩, ?_⟩
  · intro h
    constructor
    · refine (div_lt_div_iff_dvd _ W hd hW).mp ?_
      intro x hx hxW
      obtain ⟨hne, hP⟩ := hfetch x 0 hx le_rfl
      obtain ⟨F, hF⟩ := List.exists_mem_of_ne_nil _ hne
      have hb := (h x 0 hx hxW le_rfl (by omega) F hF).1.2
      rw [hP F hF] at hb
      exact hb
    · refine (div_lt_div_iff_dvd _ H hd hH).mp ?_
      intro y hy hyH
      obtain ⟨hne, hP⟩ := hfetch 0 y le_rfl hy
      obtain ⟨F, hF⟩ := List.exists_mem_of_ne_nil _ hne
      have hb := (h 0 y le_rfl (by omega) hy hyH F hF).2.2
      rw [hP F hF] at hb
      exact hb
  · rintro ⟨hdW, hdH⟩ x y hx hxW hy hyH F hF
    rw [(hfetch x y hx hy).2 F hF]
    exact ⟨⟨Int.ediv_nonneg hx hd0, (div_lt_div_iff_dvd _ W hd hW).mpr hdW x hx hxW⟩,
      ⟨Int.ediv_nonneg hy hd0, (div_lt_div_iff_dvd _ H hd hH).mpr hdH y hy hyH⟩⟩
  · rintro ⟨hdW, hdH⟩ tx ty htx htxW hty htyH
    simp only at htxW htyH
    constructor
    · refine ⟨tx * effectiveDivisor s.ms_mode s.lowres,
        ty * effectiveDivisor s.ms_mode s.lowres, ?_, ?_, ?_⟩
      · rcases hd with e | e | e | e <;> rw [e] at htxW ⊢ <;> omega
      · rcases hd with e | e | e | e <;> rw [e] at htyH ⊢ <;> omega
      · have hx : 0 ≤ tx * effectiveDivisor s.ms_mode s.lowres := Int.mul_nonneg htx hd0
        have hy : 0 ≤ ty * effectiveDivisor s.ms_mode s.lowres := Int.mul_nonneg hty hd0
        obtain ⟨hne, hP⟩ := hfetch _ _ hx hy
        refine ⟨hne, fun F hF => ?_⟩
        rw [hP F hF]
        have e1 : tx * effectiveDivisor s.ms_mode s.lowres / effectiveDivisor s.ms_mode s.lowres
            = tx := by
          rcases hd with e | e | e | e <;> rw [e] <;> omega
        have e2 : ty * effectiveDivisor s.ms_mode s.lowres / effectiveDivisor s.ms_mode s.lowres
            = ty := by
          rcases hd with e | e | e | e <;> rw [e] <;> omega
        rw [e1, e2]
    · intro hm i hi0 hi4
      have hf := (shl_one_valid s.lowres hv.2).2.2
      have hdf : effectiveDivisor s.ms_mode s.lowres = 2 * shl 1 s.lowres := by
        rw [(shl_one_valid s.lowres hv.2).2.1]
        unfold effectiveDivisor
        rw [if_pos hm, mul_comm]
      rw [hdf] at htxW htyH
      have hxn : 0 ≤ tx * (2 * shl 1 s.lowres) + shl 1 s.lowres * (i % 2) := by
        rcases hf with e | e | e <;> rw [e] <;> omega
      have hyn : 0 ≤ ty * (2 * shl 1 s.lowres) + shl 1 s.lowres * (i / 2) := by
        rcases hf with e | e | e <;> rw [e] <;> omega
      refine ⟨tx * (2 * shl 1 s.lowres) + shl 1 s.lowres * (i % 2),
        ty * (2 * shl 1 s.lowres) + shl 1 s.lowres * (i / 2), ⟨hxn, ?_⟩, ⟨hyn, ?_⟩, ?_⟩
      · rcases hf with e | e | e <;> rw [e] at htxW ⊢ <;> omega
      · rcases hf with e | e | e <;> rw [e] at htyH ⊢ <;> omega
      · unfold resolvePass
        rw [hmode, hlow, hm, shader_fetches_DRMS4 tex s.lowres _ _ hv.2 hxn hyn]
        have e1 : (tx * (2 * shl 1 s.lowres) + shl 1 s.lowres * (i % 2)) / (2 * shl 1 s.lowres)
            = tx := by
          rcases hf with e | e | e <;> rw [e] <;> omega
        have e2 : (ty * (2 * shl 1 s.lowres) + shl 1 s.lowres * (i / 2)) / (2 * shl 1 s.lowres)
            = ty := by
          rcases hf with e | e | e <;> rw [e] <;> omega
        have e3 : (tx * (2 * shl 1 s.lowres) + shl 1 s.lowres * (i % 2)) / shl 1 s.lowres % 2
            + (ty * (2 * shl 1 s.lowres) + shl 1 s.lowres * (i / 2)) / shl 1 s.lowres % 2 * 2
            = i := by
          rcases hf with e | e | e <;> rw [e] <;> omega
        rw [e1, e2, e3]

/-- Witness for `resolve_fetch_in_bounds_iff`: a 16x8 window in mode
(DRMS4, QUARTER), whose effective divisor 8 divides both sides. -/
theorem resolve_fetch_in_bounds_iff_witness :
    (1 : Int) ≤ 16 ∧ (1 : Int) ≤ 8 ∧
    ValidMode stateDrmsQuarter.ms_mode stateDrmsQuarter.lowres ∧
    ((∀ x y : Int, 0 ≤ x → x < 16 → 0 ≤ y → y < 8 →
        ∀ F ∈ (resolvePass whiteTextures (callbackResize stateDrmsQuarter 16 8) x y).fetches,
          (0 ≤ F.P.1 ∧ F.P.1 < (callbackResize stateDrmsQuarter 16 8).window_size_low.1) ∧
          (0 ≤ F.P.2 ∧ F.P.2 < (callbackResize stateDrmsQuarter 16 8).window_size_low.2))
      ↔ (effectiveDivisor stateDrmsQuarter.ms_mode stateDrmsQuarter.lowres ∣ 16 ∧
         effectiveDivisor stateDrmsQuarter.ms_mode stateDrmsQuarter.lowres ∣ 8)) :=
  ⟨by decide, by decide, by decide,
   (resolve_fetch_in_bounds_iff whiteTextures stateDrmsQuarter 16 8
      (by decide) (by decide) (by decide)).1⟩

end Drms
